import Mathlib

/-!
Verification of the Starpoint TypeScript SDK's validation, transpose and
error-normalization layer, as a shallow embedding of the canonical modular
variant (`src/typescript/src/...`): `utility.ts` (zip, handleError),
`validators.ts` (host and collection-identifier validation), `constants.ts`
(the fixed error-message catalog), the writer endpoint factories
(insert/columnInsert/update/delete), the reader factories (query/inferSchema),
the collection-management factories (create/delete collection), the embedding
factory (`embedding/index.ts`) and the OpenAI composite operation
(`open-ai/index.ts`).

Conventions of the embedding:

* A JS value that may be `null`/`undefined` is an `Option`; where the code
  distinguishes `null` from `undefined` (the OpenAI `document_metadata`
  ternary checks `!== null`), the three-state `JSOption` is used.
* Thrown JS errors are values of `JSError`; code that can throw runs in
  `Except JSError`.  A `try/catch` boundary turns an `Except` into an
  `APIResult` via `handleError`, exactly as the factories do.
* The HTTP client is a transport oracle `Q -> HttpOutcome R`; an endpoint
  returns its `APIResult` together with the list of requests it actually put
  on the wire, so that "no network call on validation failure" is a provable
  statement about the returned trace.
* JS numbers are modeled as `Int`; none of the embedded logic does any
  arithmetic on them beyond comparisons.
-/

namespace Starpoint

/-- Scalar metadata values, `string | number` in `common-types.ts`; numbers are
modeled as `Int`. -/
inductive Scalar where
  | str (s : String)
  | num (n : Int)
  deriving DecidableEq, Repr

/-- The `Value` interface of `common-types.ts`: a plain JS object mapping string
keys to scalars, modeled as an association list. -/
abbrev Value := List (String × Scalar)

/-- `Metadata = Value | undefined | null` (`common-types.ts`); `none` models both
nullish cases, which every embedded check treats alike. -/
abbrev Metadata := Option Value

/-- The TS alias `Option<T> = T | null | undefined` (`common-types.ts`), keeping
`null` and `undefined` apart for the one place the code distinguishes them. -/
inductive JSOption (T : Type) where
  | undef
  | null
  | val (t : T)
  deriving DecidableEq, Repr

/-- An error payload stored in `APIResult.error`: either the SDK shape
`ErrorResponse = {error_message: string}` or the upstream service's response
body passed through unchanged (opaque here). -/
inductive ErrorPayload where
  | errorMessage (error_message : String)
  | upstreamBody (body : String)
  deriving DecidableEq, Repr

/-- `APIResult<T, U = ErrorResponse>` (`common-types.ts`): the TS shape is
`{data: T | null; error: U | null}`, so both fields are `Option`s in the model. -/
structure APIResult (T : Type) where
  data : Option T
  error : Option ErrorPayload
  deriving DecidableEq, Repr

/-- A thrown JS error as a `catch` block sees it: a plain `Error` carrying a
message (all validation throws, and non-axios transport failures), or an axios
error whose `response?.data` is the upstream error body — `none` when the
transport failure produced no response at all. -/
inductive JSError where
  | error (message : String)
  | axiosError (responseData : Option ErrorPayload)
  deriving DecidableEq, Repr

/-- `handleError` (`utility.ts` lines 12-23): an axios error passes
`err?.response?.data` through as the error field (`undefined`, i.e. `none`, when
the error carries no response); any other thrown error is wrapped as
`{error_message: err.message}`.  Total by construction: every input yields a
value. -/
def handleError {T : Type} (err : JSError) : APIResult T :=
  match err with
  | .axiosError responseData => { data := none, error := responseData }
  | .error message => { data := none, error := some (.errorMessage message) }

/-- `zip` (`utility.ts` lines 4-10): `Array.from({length: min(|A|, |B|)},
(_, index) => [A[index], B[index]])`.  Indexing is always in bounds because
`index < min`; `getD` with the `Inhabited` default mirrors the JS access. -/
def zip {α β : Type} [Inhabited α] [Inhabited β] (listA : List α) (listB : List β) :
    List (α × β) :=
  (List.range (min listA.length listB.length)).map fun index =>
    (listA.getD index default, listB.getD index default)

/-- JS truthiness test `!x` on a string-valued key: an absent key reads as
`undefined` (falsy); a present key holds a string, which is falsy exactly when
empty. -/
def strFalsy : Option String → Bool
  | none => true
  | some s => s == ""

/-- The JS test `!xs || xs.length === 0` on an array-valued field. -/
def jsListMissing {α : Type} : Option (List α) → Bool
  | none => true
  | some xs => xs.length == 0

/-! Error-message catalog, verbatim from `src/typescript/src/constants.ts`.
Note `MULTIPLE_COLLECTION_IDENTIFIER_ERROR` (lines 24-25 there): its literal
value is the openai-key wording, identical to
`MULTIPLE_OPENAI_KEY_IDENTIFIER_ERROR`, not the collection wording used by the
monolithic variant (`src/typescript/src/index.ts` line 43). -/

def MISSING_EMBEDDING_IN_DOCUMENT_ERROR : String :=
  "Did not specify an embedding for a document in the request"

def MISSING_COLLECTION_IDENTIFIER_ERROR : String :=
  "Did not specify id or name identifier for collection in request"

def NULL_COLLECTION_ID_ERROR : String :=
  "Id cannot be null for collection in request"

def NULL_COLLECTION_NAME_ERROR : String :=
  "Name identifier cannot be null for collection in request"

def MULTIPLE_COLLECTION_IDENTIFIER_ERROR : String :=
  "Request has too many identifiers. Either pass in openai_key or openai_key_filepath, not both"

def MULTIPLE_OPENAI_KEY_IDENTIFIER_ERROR : String :=
  "Request has too many identifiers. Either pass in openai_key or openai_key_filepath, not both"

/-- The collection wording of the too-many-identifiers message, as it appears
inline in the monolithic variant `src/typescript/src/index.ts` (line 43) and in
the spec's catalog. -/
def MULTIPLE_COLLECTION_IDENTIFIER_MESSAGE_MONOLITH : String :=
  "Request has too many identifiers. Either pass in collection_id or collection_name, not both"

def MISSING_COLLECTION_ID_ERROR : String :=
  "Did not specify collection_id in request"

def MISSING_DOCUMENT_IN_REQUEST_ERROR : String :=
  "Did not specify documents in request"

def MISSING_DOCUMENT_ID_IN_REQUEST_ERROR : String :=
  "Did not specify an id for a document in the request"

def MISSING_DOCUMENT_METADATA_IN_REQUEST_ERROR : String :=
  "Did not specify metadata for a document in the request"

def MISSING_DOCUMENT_IDS_IN_DELETE_REQUEST_ERROR : String :=
  "Did not specify document id(s) to delete in request"

def CREATE_COLLECTION_MISSING_NAME_ERROR : String :=
  "Did not specify name of collection in request"

def CREATE_COLLECTION_MISSING_DIMENSIONALITY_ERROR : String :=
  "Did not specify dimensionality of collection in request"

def CREATE_COLLECTION_DIMENSIONALITY_LTE_ZERO_ERROR : String :=
  "Dimensionality cannot be less than or equal to 0"

def MISSING_HOST_ERROR : String :=
  "No host value provided. A host must be provided."

def OPENAI_INSTANCE_INIT_ERROR : String :=
  "OpenAI instance has not been initialized. Please initialize it using \"client.initOpenai()\""

/-- `ByWrapper<T>` (`common-types.ts`): a request body together with the two
possible collection-identifier keys.  `none` models an absent key — the
validator distinguishes key presence (`"collection_id" in request`) from value
falsiness (`!request.collection_id`). -/
structure ByWrapper (T : Type) where
  collection_id : Option String
  collection_name : Option String
  body : T
  deriving DecidableEq, Repr

/-- `sanitizeCollectionIdentifiersInRequest` (`validators.ts` lines 38-61).
Four checks in source order; each throws, so the sequential `if`s are an
`if/else` chain.  The thrown messages come from `constants.ts` — including the
mis-worded `MULTIPLE_COLLECTION_IDENTIFIER_ERROR`. -/
def sanitizeCollectionIdentifiersInRequest {T : Type} (request : ByWrapper T) :
    Except JSError Unit :=
  if request.collection_id.isSome && request.collection_name.isSome then
    .error (.error MULTIPLE_COLLECTION_IDENTIFIER_ERROR)
  else if !request.collection_id.isSome && !request.collection_name.isSome then
    .error (.error MISSING_COLLECTION_IDENTIFIER_ERROR)
  else if !request.collection_id.isSome && request.collection_name.isSome
      && strFalsy request.collection_name then
    .error (.error NULL_COLLECTION_NAME_ERROR)
  else if !request.collection_name.isSome && request.collection_id.isSome
      && strFalsy request.collection_id then
    .error (.error NULL_COLLECTION_ID_ERROR)
  else
    .ok ()

/-- One HTTP exchange as the factory observes it through axios/ky: the awaited
call either yields a parsed response body or throws an error. -/
inductive HttpOutcome (R : Type) where
  | success (body : R)
  | failure (err : JSError)
  deriving DecidableEq, Repr

/-- The shared factory body shape `try { validate(request); const response =
await client.post(path, request); return {data: response, error: null}; }
catch (err) { return handleError(err); }`, with the list of requests put on the
wire returned alongside the result. -/
def runEndpoint {Q R : Type} (validate : Q → Except JSError Unit)
    (transport : Q → HttpOutcome R) (request : Q) : APIResult R × List Q :=
  match validate request with
  | .error err => (handleError err, [])
  | .ok _ =>
    match transport request with
    | .success respBody => ({ data := some respBody, error := none }, [request])
    | .failure err => (handleError err, [request])

/-- `Document` (`common-types.ts`): an embedding vector (`none` when a malformed
request omits it) plus optional metadata. -/
structure Document where
  embedding : Option (List Int)
  metadata : Metadata
  deriving DecidableEq, Repr

/-- Body of `InsertRequest` (`writer/types.ts`); `documents` is `none` when the
caller omitted the key. -/
structure InsertBody where
  documents : Option (List Document)
  deriving DecidableEq, Repr

abbrev InsertRequest := ByWrapper InsertBody

/-- The validation sequence of `insertDocumentsFactory` (axios writer variant,
lines 34-51): sanitize identifiers; require a present, non-empty documents
array; require every document to carry a present, non-empty embedding. -/
def insertValidate (request : InsertRequest) : Except JSError Unit :=
  match sanitizeCollectionIdentifiersInRequest request with
  | .error err => .error err
  | .ok _ =>
    if jsListMissing request.body.documents then
      .error (.error MISSING_DOCUMENT_IN_REQUEST_ERROR)
    else if (request.body.documents.getD []).any
        (fun document => jsListMissing document.embedding) then
      .error (.error MISSING_EMBEDDING_IN_DOCUMENT_ERROR)
    else
      .ok ()

/-- `insertDocumentsFactory` (axios writer variant): validate, then `POST` the
request unchanged. -/
def insertDocumentsFactory {R : Type} (transport : InsertRequest → HttpOutcome R)
    (request : InsertRequest) : APIResult R × List InsertRequest :=
  runEndpoint insertValidate transport request

/-- Body of `TransposeAndInsertRequest` (`writer/types.ts`): parallel columnar
arrays `embeddings: number[][]` and `document_metadata: Metadata[]`. -/
structure TransposeBody where
  embeddings : List (List Int)
  document_metadata : List Metadata
  deriving DecidableEq, Repr

abbrev TransposeAndInsertRequest := ByWrapper TransposeBody

/-- `columnInsertFactory` (axios writer variant, lines 66-98): sanitize
identifiers, `zip` the columnar arrays into row documents, and delegate the
resulting insert request to the given `insertDocuments` function (the `...rest`
spread carries the identifier keys over). -/
def columnInsertFactory {R : Type}
    (insertDocuments : InsertRequest → APIResult R × List InsertRequest)
    (request : TransposeAndInsertRequest) : APIResult R × List InsertRequest :=
  match sanitizeCollectionIdentifiersInRequest request with
  | .error err => (handleError err, [])
  | .ok _ =>
    let columns := zip request.body.embeddings request.body.document_metadata
    let documents : List Document := columns.map fun column =>
      { embedding := some column.1, metadata := column.2 }
    insertDocuments
      { collection_id := request.collection_id
        collection_name := request.collection_name
        body := { documents := some documents } }

/-- An update document (`writer/types.ts`): `{id: string; metadata: Metadata}`;
`id` is `none` when the key is absent. -/
structure UpdateDocument where
  id : Option String
  metadata : Metadata
  deriving DecidableEq, Repr

structure UpdateBody where
  documents : Option (List UpdateDocument)
  deriving DecidableEq, Repr

abbrev UpdateRequest := ByWrapper UpdateBody

/-- The JS expression `metadata.length === 0` where `metadata` is a plain
object: the property access reads the object's `"length"` key — normally absent,
hence `undefined`, and `undefined === 0` is false — so it is `true` only when the
object happens to store the number `0` under the key `"length"`. -/
def valueLengthEqZero (v : Value) : Bool :=
  match v.lookup "length" with
  | some (Scalar.num 0) => true
  | _ => false

/-- The JS test `!document.metadata || document.metadata.length === 0`
(`writer/index.ts` update validation): nullish metadata is falsy; a present
object — even the empty object `{}` — is truthy, and its `.length` is a property
read. -/
def updateMetadataMissing : Metadata → Bool
  | none => true
  | some v => valueLengthEqZero v

/-- The validation sequence of `updateDocumentsFactory` (axios writer variant,
lines 100-122): sanitize identifiers; require non-empty documents; require every
document to have a truthy id; require every document's metadata to pass the
`!metadata || metadata.length === 0` test. -/
def updateValidate (request : UpdateRequest) : Except JSError Unit :=
  match sanitizeCollectionIdentifiersInRequest request with
  | .error err => .error err
  | .ok _ =>
    if jsListMissing request.body.documents then
      .error (.error MISSING_DOCUMENT_IN_REQUEST_ERROR)
    else if (request.body.documents.getD []).any
        (fun document => strFalsy document.id) then
      .error (.error MISSING_DOCUMENT_ID_IN_REQUEST_ERROR)
    else if (request.body.documents.getD []).any
        (fun document => updateMetadataMissing document.metadata) then
      .error (.error MISSING_DOCUMENT_METADATA_IN_REQUEST_ERROR)
    else
      .ok ()

/-- `updateDocumentsFactory` (axios writer variant): validate, then `PATCH`. -/
def updateDocumentsFactory {R : Type} (transport : UpdateRequest → HttpOutcome R)
    (request : UpdateRequest) : APIResult R × List UpdateRequest :=
  runEndpoint updateValidate transport request

structure DeleteBody where
  ids : Option (List String)
  deriving DecidableEq, Repr

abbrev DeleteRequest := ByWrapper DeleteBody

/-- The validation sequence of `deleteDocumentsFactory` (axios writer variant,
lines 137-145): sanitize identifiers, then require non-empty ids. -/
def deleteValidate (request : DeleteRequest) : Except JSError Unit :=
  match sanitizeCollectionIdentifiersInRequest request with
  | .error err => .error err
  | .ok _ =>
    if jsListMissing request.body.ids then
      .error (.error MISSING_DOCUMENT_IDS_IN_DELETE_REQUEST_ERROR)
    else
      .ok ()

/-- `deleteDocumentsFactory` (axios writer variant): validate, then a
body-carrying `DELETE`. -/
def deleteDocumentsFactory {R : Type} (transport : DeleteRequest → HttpOutcome R)
    (request : DeleteRequest) : APIResult R × List DeleteRequest :=
  runEndpoint deleteValidate transport request

/-- Body of `QueryRequest` (`reader/types.ts`). -/
structure QueryBody where
  query_embedding : Option (List Int)
  sql : Option String
  deriving DecidableEq, Repr

abbrev QueryRequest := ByWrapper QueryBody

/-- `queryDocumentsFactory` (`reader/index.ts` lines 22-40): the only validation
is the identifier sanitize. -/
def queryDocumentsFactory {R : Type} (transport : QueryRequest → HttpOutcome R)
    (request : QueryRequest) : APIResult R × List QueryRequest :=
  runEndpoint sanitizeCollectionIdentifiersInRequest transport request

/-- `InferSchemaRequest = ByWrapper<{}>` (`reader/types.ts`). -/
abbrev InferSchemaRequest := ByWrapper Unit

/-- `inferSchemaFactory` (`reader/index.ts` lines 42-62): identifier sanitize
only. -/
def inferSchemaFactory {R : Type} (transport : InferSchemaRequest → HttpOutcome R)
    (request : InferSchemaRequest) : APIResult R × List InferSchemaRequest :=
  runEndpoint sanitizeCollectionIdentifiersInRequest transport request

/-- `CreateCollectionRequest` (`manager/types.ts`): `{name: string;
dimensionality: number}`, both possibly absent/nullish in a malformed call. -/
structure CreateCollectionRequest where
  name : Option String
  dimensionality : Option Int
  deriving DecidableEq, Repr

/-- The validation sequence of `createCollectionFactory` (`manager/index.ts`,
initialize.ts manager section lines 84-102): `!request.name`, then
`dimensionality === undefined || dimensionality === null`, then
`dimensionality <= 0`. -/
def createCollectionValidate (request : CreateCollectionRequest) :
    Except JSError Unit :=
  if strFalsy request.name then
    .error (.error CREATE_COLLECTION_MISSING_NAME_ERROR)
  else if request.dimensionality.isNone then
    .error (.error CREATE_COLLECTION_MISSING_DIMENSIONALITY_ERROR)
  else if request.dimensionality.getD 0 ≤ 0 then
    .error (.error CREATE_COLLECTION_DIMENSIONALITY_LTE_ZERO_ERROR)
  else
    .ok ()

/-- `createCollectionFactory`: validate, then `POST` the request unchanged. -/
def createCollectionFactory {R : Type}
    (transport : CreateCollectionRequest → HttpOutcome R)
    (request : CreateCollectionRequest) :
    APIResult R × List CreateCollectionRequest :=
  runEndpoint createCollectionValidate transport request

structure DeleteCollectionRequest where
  collection_id : Option String
  deriving DecidableEq, Repr

/-- The validation of `deleteCollectionFactory` (`manager/index.ts` lines
117-125): `!request.collection_id`. -/
def deleteCollectionValidate (request : DeleteCollectionRequest) :
    Except JSError Unit :=
  if strFalsy request.collection_id then
    .error (.error MISSING_COLLECTION_ID_ERROR)
  else
    .ok ()

/-- `deleteCollectionFactory`: validate, then a body-carrying `DELETE`. -/
def deleteCollectionFactory {R : Type}
    (transport : DeleteCollectionRequest → HttpOutcome R)
    (request : DeleteCollectionRequest) :
    APIResult R × List DeleteCollectionRequest :=
  runEndpoint deleteCollectionValidate transport request

/-- `EMBEDDING_MODELS = ["MINI6", "MINI12"] as const` (`common-types.ts`). -/
def EMBEDDING_MODELS : List String := ["MINI6", "MINI12"]

/-- `validateEmbeddingModel` (`embedding/validators.ts`): throws when the model
is not in the fixed enumerated set. -/
def validateEmbeddingModel (model : String) : Except JSError Unit :=
  if !(EMBEDDING_MODELS.contains model) then
    .error (.error ("Invalid model: " ++ model ++ ". Valid models are MINI6 and MINI12."))
  else
    .ok ()

/-- `TextEmbeddingRequest` (`embedding/types.ts`): `{text: string[]; model}`. -/
structure TextEmbeddingRequest where
  text : List String
  model : String
  deriving DecidableEq, Repr

def embedValidate (req : TextEmbeddingRequest) : Except JSError Unit :=
  validateEmbeddingModel req.model

/-- `embedFactory` (`embedding/index.ts` lines 22-42): validate the model, then
`POST` the request unchanged. -/
def embedFactory {R : Type} (transport : TextEmbeddingRequest → HttpOutcome R)
    (req : TextEmbeddingRequest) : APIResult R × List TextEmbeddingRequest :=
  runEndpoint embedValidate transport req

/-- The regex replace `host.replace(/\/$/, "")`: drop one trailing slash
character when present (modeled on the character list so that it evaluates). -/
def stripTrailingSlash (host : String) : String :=
  if host.data.getLast? = some '/' then String.mk host.data.dropLast else host

/-- `setAndValidateHost` (`validators.ts` lines 12-36), parameterized by the
external `isURL` predicate of the `validator` package: an empty host throws the
missing-host message, a string rejected by `isURL` throws the invalid-format
message, and an accepted host is returned with a trailing slash stripped.  This
is the one SDK function that raises instead of returning an error value. -/
def setAndValidateHost (isURL : String → Bool) (host : String) :
    Except JSError String :=
  if host == "" then
    .error (.error MISSING_HOST_ERROR)
  else if !(isURL host) then
    .error (.error ("Provided host " ++ host ++ " is not a valid URL format."))
  else
    .ok (stripTrailingSlash host)

/-- One `{index, embedding}` item of the OpenAI `createEmbedding` response. -/
structure EmbeddingItem where
  index : Int
  embedding : List Int
  deriving DecidableEq, Repr

/-- The OpenAI `createEmbedding` response body (`embeddingResponse.data` in the
source); its `data` array may be `null`. -/
structure CreateEmbeddingResponseBody where
  data : Option (List EmbeddingItem)
  deriving DecidableEq, Repr

/-- `CreateEmbeddingRequestInput`: a single string or an array of inputs. -/
inductive CreateEmbeddingInput where
  | str (s : String)
  | arr (items : List Scalar)
  deriving DecidableEq, Repr

/-- `backfillDocumentMetadata` (`open-ai/utility.ts` lines 206-218): a single
string input becomes the one-element list `[{input: <string>}]`; an array input
maps each item to `{input: <item>}`. -/
def backfillDocumentMetadata : CreateEmbeddingInput → List Metadata
  | .str s => [some [("input", Scalar.str s)]]
  | .arr items => items.map fun data => some [("input", data)]

/-- The comparator relation of `embeddingData.sort((a, b) => a.index - b.index)`. -/
def indexLE (a b : EmbeddingItem) : Prop := a.index ≤ b.index

instance : DecidableRel indexLE := fun a b => inferInstanceAs (Decidable (a.index ≤ b.index))

instance : IsTotal EmbeddingItem indexLE := ⟨fun a b => Int.le_total a.index b.index⟩

instance : IsTrans EmbeddingItem indexLE := ⟨fun _ _ _ hab hbc => le_trans hab hbc⟩

/-- The `.sort((a, b) => a.index - b.index)` call: JS `Array.prototype.sort`
with a numeric comparator yields the stable ascending reordering, which is what
insertion sort on `indexLE` computes. -/
def sortEmbeddingData (l : List EmbeddingItem) : List EmbeddingItem :=
  List.insertionSort indexLE l

/-- The argument record `buildAndInsertEmbeddingsFromOpenAI` passes to the
`columnInsert` collaborator.  At the JS level `document_metadata` can be
`undefined` here (when the caller omitted the field), even though the TS type of
`columnInsert` promises an array, so the field is a `JSOption`. -/
structure TransposeArgs where
  collection_id : Option String
  collection_name : Option String
  embeddings : List (List Int)
  document_metadata : JSOption (List Metadata)
  deriving DecidableEq, Repr

/-- Body of `BuildAndInsertEmbeddingsFromOpenAIRequest` (`writer/types.ts` /
part_005): `document_metadata?: Option<Metadata[]>` so all three of absent,
null and array are possible. -/
structure BuildBody where
  model : String
  input_data : CreateEmbeddingInput
  document_metadata : JSOption (List Metadata)
  openai_user : JSOption String
  deriving DecidableEq, Repr

abbrev BuildAndInsertEmbeddingsFromOpenAIRequest := ByWrapper BuildBody

/-- The argument object of `openAIApiClient.createEmbedding({model, input,
user})`. -/
structure CreateEmbeddingArgs where
  model : String
  input : CreateEmbeddingInput
  user : JSOption String
  deriving DecidableEq, Repr

/-- The success payload `{openai_response, starpoint_response}` of the composite
operation; `starpoint_response` is the `data` field of the `columnInsert` result
(or `null` when the embedding call returned no data array). -/
structure BuildAndInsertEmbeddingsFromOpenAIResponse (R : Type) where
  openai_response : CreateEmbeddingResponseBody
  starpoint_response : Option R
  deriving DecidableEq, Repr

/-- The ternary `document_metadata !== null ? document_metadata :
backfillDocumentMetadata(input_data)` (`open-ai/index.ts` lines 75-78): only an
explicit `null` triggers the backfill; an omitted (`undefined`) field passes
through unchanged. -/
def requestedDocumentMetadata (document_metadata : JSOption (List Metadata))
    (input_data : CreateEmbeddingInput) : JSOption (List Metadata) :=
  match document_metadata with
  | .null => .val (backfillDocumentMetadata input_data)
  | other => other

/-- `buildAndInsertEmbeddingsFromOpenAI` (`open-ai/index.ts` lines 31-105), with
the OpenAI client and the `columnInsert` collaborator passed in as in the
source, and the requests handed to `columnInsert` recorded in the trace:
require an initialized client; sanitize identifiers; call `createEmbedding`;
when its data array is `null` return only the OpenAI response; otherwise sort
the items by reported index, project the embeddings, resolve the metadata via
the `!== null` ternary, delegate to `columnInsert`, and wrap both responses. -/
def buildAndInsertEmbeddingsFromOpenAI {R : Type}
    (openAIApiClient : Option (CreateEmbeddingArgs → HttpOutcome CreateEmbeddingResponseBody))
    (columnInsert : TransposeArgs → APIResult R × List InsertRequest)
    (request : BuildAndInsertEmbeddingsFromOpenAIRequest) :
    APIResult (BuildAndInsertEmbeddingsFromOpenAIResponse R) × List TransposeArgs :=
  match openAIApiClient with
  | none => (handleError (.error OPENAI_INSTANCE_INIT_ERROR), [])
  | some createEmbedding =>
    match sanitizeCollectionIdentifiersInRequest request with
    | .error err => (handleError err, [])
    | .ok _ =>
      match createEmbedding
          { model := request.body.model
            input := request.body.input_data
            user := request.body.openai_user } with
      | .failure err => (handleError err, [])
      | .success embeddingResponse =>
        match embeddingResponse.data with
        | none =>
          ({ data := some { openai_response := embeddingResponse, starpoint_response := none }
             error := none }, [])
        | some embeddingData =>
          let sortedEmbeddingData := sortEmbeddingData embeddingData
          let embeddings := sortedEmbeddingData.map fun item => item.embedding
          let sent : TransposeArgs :=
            { collection_id := request.collection_id
              collection_name := request.collection_name
              embeddings := embeddings
              document_metadata :=
                requestedDocumentMetadata request.body.document_metadata request.body.input_data }
          let starpointResponse := columnInsert sent
          ({ data := some
               { openai_response := embeddingResponse
                 starpoint_response := starpointResponse.1.data }
             error := none }, [sent])

/-- The request the composite operation delegates to `columnInsert` once the
embedding call has returned `items`: the identifiers are spread over, the
embeddings are the index-sorted items' vectors, and the metadata is the result
of the `!== null` ternary. -/
def sentArgs (request : BuildAndInsertEmbeddingsFromOpenAIRequest)
    (items : List EmbeddingItem) : TransposeArgs :=
  { collection_id := request.collection_id
    collection_name := request.collection_name
    embeddings := (sortEmbeddingData items).map fun item => item.embedding
    document_metadata :=
      requestedDocumentMetadata request.body.document_metadata request.body.input_data }

/-- The discriminated-union invariant the spec claims for `APIResult`: exactly
one of `data` and `error` is non-null. -/
def APIResult.wellFormed {T : Type} (r : APIResult T) : Bool :=
  r.data.isSome != r.error.isSome

/-! Shared auxiliary lemmas about the embedded definitions. -/

theorem zip_length {α β : Type} [Inhabited α] [Inhabited β] (listA : List α)
    (listB : List β) : (zip listA listB).length = min listA.length listB.length := by
  simp [zip]

theorem zip_get {α β : Type} [Inhabited α] [Inhabited β] (listA : List α)
    (listB : List β) (i : Nat) (h : i < (zip listA listB).length)
    (hA : i < listA.length) (hB : i < listB.length) :
    (zip listA listB).get ⟨i, h⟩ = (listA.get ⟨i, hA⟩, listB.get ⟨i, hB⟩) := by
  simp only [zip, List.get_eq_getElem, List.getElem_map]
  have hi : i < (List.range (min listA.length listB.length)).length := by
    simpa [zip] using h
  rw [List.getElem_range]
  rw [List.getD_eq_getElem?_getD, List.getD_eq_getElem?_getD]
  rw [List.getElem?_eq_getElem hA, List.getElem?_eq_getElem hB]
  rfl

theorem sanitize_plain {T : Type} (request : ByWrapper T) :
    sanitizeCollectionIdentifiersInRequest request = .ok ()
    ∨ ∃ msg, sanitizeCollectionIdentifiersInRequest request = .error (.error msg) := by
  unfold sanitizeCollectionIdentifiersInRequest
  split
  · exact Or.inr ⟨_, rfl⟩
  · split
    · exact Or.inr ⟨_, rfl⟩
    · split
      · exact Or.inr ⟨_, rfl⟩
      · split
        · exact Or.inr ⟨_, rfl⟩
        · exact Or.inl rfl

theorem sanitize_both_missing {T : Type} (request : ByWrapper T)
    (h1 : request.collection_id = none) (h2 : request.collection_name = none) :
    sanitizeCollectionIdentifiersInRequest request
      = .error (.error MISSING_COLLECTION_IDENTIFIER_ERROR) := by
  simp [sanitizeCollectionIdentifiersInRequest, h1, h2]

theorem insertValidate_plain (request : InsertRequest) :
    insertValidate request = .ok ()
    ∨ ∃ msg, insertValidate request = .error (.error msg) := by
  rcases sanitize_plain request with h | ⟨msg, h⟩
  · simp only [insertValidate, h]
    split
    · exact Or.inr ⟨_, rfl⟩
    · split
      · exact Or.inr ⟨_, rfl⟩
      · exact Or.inl rfl
  · simp only [insertValidate, h]
    exact Or.inr ⟨msg, rfl⟩

theorem updateValidate_plain (request : UpdateRequest) :
    updateValidate request = .ok ()
    ∨ ∃ msg, updateValidate request = .error (.error msg) := by
  rcases sanitize_plain request with h | ⟨msg, h⟩
  · simp only [updateValidate, h]
    split
    · exact Or.inr ⟨_, rfl⟩
    · split
      · exact Or.inr ⟨_, rfl⟩
      · split
        · exact Or.inr ⟨_, rfl⟩
        · exact Or.inl rfl
  · simp only [updateValidate, h]
    exact Or.inr ⟨msg, rfl⟩

theorem deleteValidate_plain (request : DeleteRequest) :
    deleteValidate request = .ok ()
    ∨ ∃ msg, deleteValidate request = .error (.error msg) := by
  rcases sanitize_plain request with h | ⟨msg, h⟩
  · simp only [deleteValidate, h]
    split
    · exact Or.inr ⟨_, rfl⟩
    · exact Or.inl rfl
  · simp only [deleteValidate, h]
    exact Or.inr ⟨msg, rfl⟩

theorem createCollectionValidate_plain (request : CreateCollectionRequest) :
    createCollectionValidate request = .ok ()
    ∨ ∃ msg, createCollectionValidate request = .error (.error msg) := by
  unfold createCollectionValidate
  split
  · exact Or.inr ⟨_, rfl⟩
  · split
    · exact Or.inr ⟨_, rfl⟩
    · split
      · exact Or.inr ⟨_, rfl⟩
      · exact Or.inl rfl

theorem deleteCollectionValidate_plain (request : DeleteCollectionRequest) :
    deleteCollectionValidate request = .ok ()
    ∨ ∃ msg, deleteCollectionValidate request = .error (.error msg) := by
  unfold deleteCollectionValidate
  split
  · exact Or.inr ⟨_, rfl⟩
  · exact Or.inl rfl

theorem embedValidate_plain (req : TextEmbeddingRequest) :
    embedValidate req = .ok () ∨ ∃ msg, embedValidate req = .error (.error msg) := by
  unfold embedValidate validateEmbeddingModel
  split
  · exact Or.inr ⟨_, rfl⟩
  · exact Or.inl rfl

theorem insertValidate_sanitize_error (request : InsertRequest) (e : JSError)
    (h : sanitizeCollectionIdentifiersInRequest request = .error e) :
    insertValidate request = .error e := by
  unfold insertValidate
  rw [h]

theorem updateValidate_sanitize_error (request : UpdateRequest) (e : JSError)
    (h : sanitizeCollectionIdentifiersInRequest request = .error e) :
    updateValidate request = .error e := by
  unfold updateValidate
  rw [h]

theorem deleteValidate_sanitize_error (request : DeleteRequest) (e : JSError)
    (h : sanitizeCollectionIdentifiersInRequest request = .error e) :
    deleteValidate request = .error e := by
  unfold deleteValidate
  rw [h]

theorem runEndpoint_error {Q R : Type} (validate : Q → Except JSError Unit)
    (transport : Q → HttpOutcome R) (request : Q) (err : JSError)
    (h : validate request = .error err) :
    runEndpoint validate transport request = (handleError err, []) := by
  simp [runEndpoint, h]

theorem runEndpoint_shape {Q R : Type} (validate : Q → Except JSError Unit)
    (transport : Q → HttpOutcome R) (request : Q) :
    (∃ b, (runEndpoint validate transport request).1 = { data := some b, error := none })
    ∨ ∃ e, (runEndpoint validate transport request).1 = handleError e := by
  unfold runEndpoint
  rcases hv : validate request with e | u
  · exact Or.inr ⟨e, rfl⟩
  · rcases ht : transport request with b | e
    · exact Or.inl ⟨b, rfl⟩
    · exact Or.inr ⟨e, rfl⟩

theorem handleError_wellFormed {T : Type} (err : JSError)
    (h : err ≠ JSError.axiosError none) :
    (handleError (T := T) err).wellFormed = true := by
  cases err with
  | error m => simp [handleError, APIResult.wellFormed]
  | axiosError rd =>
    cases rd with
    | none => exact absurd rfl h
    | some p => simp [handleError, APIResult.wellFormed]

theorem runEndpoint_wellFormed {Q R : Type} (validate : Q → Except JSError Unit)
    (transport : Q → HttpOutcome R) (request : Q)
    (hv : validate request = .ok ()
          ∨ ∃ msg, validate request = .error (.error msg))
    (ht : ∀ q, transport q ≠ .failure (.axiosError none)) :
    ((runEndpoint validate transport request).1).wellFormed = true := by
  unfold runEndpoint
  rcases hv with h | ⟨msg, h⟩
  · rw [h]
    rcases h2 : transport request with b | e
    · simp [APIResult.wellFormed]
    · have : e ≠ .axiosError none := by
        intro he
        exact ht request (by rw [h2, he])
      simpa using handleError_wellFormed (T := R) e this
  · rw [h]
    simp [handleError, APIResult.wellFormed]

theorem columnInsert_shape {R : Type} (transport : InsertRequest → HttpOutcome R)
    (request : TransposeAndInsertRequest) :
    (∃ b, (columnInsertFactory (insertDocumentsFactory transport) request).1
            = { data := some b, error := none })
    ∨ ∃ e, (columnInsertFactory (insertDocumentsFactory transport) request).1
            = handleError e := by
  unfold columnInsertFactory
  rcases hs : sanitizeCollectionIdentifiersInRequest request with e | u
  · exact Or.inr ⟨e, rfl⟩
  · exact runEndpoint_shape insertValidate transport _

theorem columnInsert_wellFormed {R : Type} (transport : InsertRequest → HttpOutcome R)
    (request : TransposeAndInsertRequest)
    (ht : ∀ q, transport q ≠ .failure (.axiosError none)) :
    ((columnInsertFactory (insertDocumentsFactory transport) request).1).wellFormed
      = true := by
  unfold columnInsertFactory
  rcases sanitize_plain request with h | ⟨msg, h⟩
  · rw [h]
    exact runEndpoint_wellFormed insertValidate transport _ (insertValidate_plain _) ht
  · rw [h]
    simp [handleError, APIResult.wellFormed]

/-! Claim theorems. -/

/-- Claim C1: `zip` has length `min |A| |B|` and its `i`-th element is the pair
`(A[i], B[i])`; consequently `columnInsert` builds exactly
`min |embeddings| |document_metadata|` documents by positional pairing, silently
dropping surplus entries — in particular embeddings `[e1, e2]` with metadata
`[m1]` yield exactly the one document with embedding `e1` and metadata `m1`. -/
theorem c1_zip_truncating_pairing :
    (∀ (α β : Type) [Inhabited α] [Inhabited β] (listA : List α) (listB : List β),
      (zip listA listB).length = min listA.length listB.length
      ∧ ∀ (i : Nat) (h : i < (zip listA listB).length) (hA : i < listA.length)
          (hB : i < listB.length),
          (zip listA listB).get ⟨i, h⟩ = (listA.get ⟨i, hA⟩, listB.get ⟨i, hB⟩))
    ∧ (∀ (R : Type) (insertDocuments : InsertRequest → APIResult R × List InsertRequest)
        (request : TransposeAndInsertRequest),
        sanitizeCollectionIdentifiersInRequest request = .ok () →
        ∃ documents : List Document,
          columnInsertFactory insertDocuments request
            = insertDocuments
                { collection_id := request.collection_id
                  collection_name := request.collection_name
                  body := { documents := some documents } }
          ∧ documents.length
              = min request.body.embeddings.length request.body.document_metadata.length
          ∧ ∀ (i : Nat) (h : i < documents.length)
              (hA : i < request.body.embeddings.length)
              (hB : i < request.body.document_metadata.length),
              documents.get ⟨i, h⟩
                = { embedding := some (request.body.embeddings.get ⟨i, hA⟩)
                    metadata := request.body.document_metadata.get ⟨i, hB⟩ })
    ∧ (∀ (R : Type) (insertDocuments : InsertRequest → APIResult R × List InsertRequest)
        (e1 e2 : List Int) (m1 : Metadata),
        columnInsertFactory insertDocuments
          { collection_id := some "c", collection_name := none
            body := { embeddings := [e1, e2], document_metadata := [m1] } }
          = insertDocuments
              { collection_id := some "c", collection_name := none
                body := { documents := some [{ embedding := some e1, metadata := m1 }] } }) := by
  refine ⟨?_, ?_, ?_⟩
  · intro α β ia ib listA listB
    exact ⟨zip_length listA listB, fun i h hA hB => zip_get listA listB i h hA hB⟩
  · intro R insertDocuments request hs
    refine ⟨(zip request.body.embeddings request.body.document_metadata).map
      (fun column => { embedding := some column.1, metadata := column.2 }), ?_, ?_, ?_⟩
    · simp only [columnInsertFactory, hs]
    · simp [zip_length]
    · intro i h hA hB
      have hz : i < (zip request.body.embeddings request.body.document_metadata).length := by
        simpa using h
      have hget := zip_get request.body.embeddings request.body.document_metadata i hz hA hB
      simp only [List.get_eq_getElem] at hget ⊢
      simp [List.getElem_map, hget]
  · intro R insertDocuments e1 e2 m1
    rfl

/-- Claim C1 witness: at `A = [[1], [2]]`, `B = [some []]` the pair at index 0 of
the zip is `([1], some [])`, the index hypotheses being discharged concretely. -/
theorem c1_zip_truncating_pairing_witness :
    (0 < (zip [([1] : List Int), [2]] [(some [] : Metadata)]).length)
    ∧ (zip [([1] : List Int), [2]] [(some [] : Metadata)]).get ⟨0, by decide⟩
        = ([1], some []) :=
  ⟨by decide,
    (c1_zip_truncating_pairing.1 (List Int) Metadata [[1], [2]] [some []]).2 0
      (by decide) (by decide) (by decide)⟩

/-- Claim C2: for every request and every transport outcome, each of the nine
endpoint operations produces an `APIResult` value that is either the success
shape or the `handleError` normalization of a caught error — errors are always
returned as values, never raised — and `handleError` itself always produces a
data-null value. -/
theorem c2_endpoints_total_no_throw :
    (∀ (T : Type) (err : JSError), (handleError (T := T) err).data = none)
    ∧ (∀ (R : Type) (transport : InsertRequest → HttpOutcome R) (request : InsertRequest),
        (∃ b, (insertDocumentsFactory transport request).1 = { data := some b, error := none })
        ∨ ∃ e, (insertDocumentsFactory transport request).1 = handleError e)
    ∧ (∀ (R : Type) (transport : InsertRequest → HttpOutcome R)
        (request : TransposeAndInsertRequest),
        (∃ b, (columnInsertFactory (insertDocumentsFactory transport) request).1
                = { data := some b, error := none })
        ∨ ∃ e, (columnInsertFactory (insertDocumentsFactory transport) request).1
                = handleError e)
    ∧ (∀ (R : Type) (transport : UpdateRequest → HttpOutcome R) (request : UpdateRequest),
        (∃ b, (updateDocumentsFactory transport request).1 = { data := some b, error := none })
        ∨ ∃ e, (updateDocumentsFactory transport request).1 = handleError e)
    ∧ (∀ (R : Type) (transport : DeleteRequest → HttpOutcome R) (request : DeleteRequest),
        (∃ b, (deleteDocumentsFactory transport request).1 = { data := some b, error := none })
        ∨ ∃ e, (deleteDocumentsFactory transport request).1 = handleError e)
    ∧ (∀ (R : Type) (transport : QueryRequest → HttpOutcome R) (request : QueryRequest),
        (∃ b, (queryDocumentsFactory transport request).1 = { data := some b, error := none })
        ∨ ∃ e, (queryDocumentsFactory transport request).1 = handleError e)
    ∧ (∀ (R : Type) (transport : InferSchemaRequest → HttpOutcome R)
        (request : InferSchemaRequest),
        (∃ b, (inferSchemaFactory transport request).1 = { data := some b, error := none })
        ∨ ∃ e, (inferSchemaFactory transport request).1 = handleError e)
    ∧ (∀ (R : Type) (transport : CreateCollectionRequest → HttpOutcome R)
        (request : CreateCollectionRequest),
        (∃ b, (createCollectionFactory transport request).1 = { data := some b, error := none })
        ∨ ∃ e, (createCollectionFactory transport request).1 = handleError e)
    ∧ (∀ (R : Type) (transport : DeleteCollectionRequest → HttpOutcome R)
        (request : DeleteCollectionRequest),
        (∃ b, (deleteCollectionFactory transport request).1 = { data := some b, error := none })
        ∨ ∃ e, (deleteCollectionFactory transport request).1 = handleError e)
    ∧ (∀ (R : Type) (transport : TextEmbeddingRequest → HttpOutcome R)
        (request : TextEmbeddingRequest),
        (∃ b, (embedFactory transport request).1 = { data := some b, error := none })
        ∨ ∃ e, (embedFactory transport request).1 = handleError e) := by
  refine ⟨?_, ?_, ?_, ?_, ?_, ?_, ?_, ?_, ?_, ?_⟩
  · intro T err
    cases err <;> rfl
  · intro R transport request
    exact runEndpoint_shape insertValidate transport request
  · intro R transport request
    exact columnInsert_shape transport request
  · intro R transport request
    exact runEndpoint_shape updateValidate transport request
  · intro R transport request
    exact runEndpoint_shape deleteValidate transport request
  · intro R transport request
    exact runEndpoint_shape sanitizeCollectionIdentifiersInRequest transport request
  · intro R transport request
    exact runEndpoint_shape sanitizeCollectionIdentifiersInRequest transport request
  · intro R transport request
    exact runEndpoint_shape createCollectionValidate transport request
  · intro R transport request
    exact runEndpoint_shape deleteCollectionValidate transport request
  · intro R transport request
    exact runEndpoint_shape embedValidate transport request

/-- Claim C3 counterexample: an axios transport failure carrying no response
body drives `handleError` — and hence `insertDocuments`, on an otherwise valid
request — to a result with BOTH `data` and `error` null, violating the
exactly-one-non-null invariant claimed for every failure outcome. -/
theorem c3_counterexample_bodyless_axios_error :
    APIResult.wellFormed
        ((insertDocumentsFactory (R := Nat)
          (fun _ => HttpOutcome.failure (JSError.axiosError none))
          { collection_id := some "c", collection_name := none
            body := { documents := some [{ embedding := some [1], metadata := none }] } }).1)
      = false
    ∧ (insertDocumentsFactory (R := Nat)
          (fun _ => HttpOutcome.failure (JSError.axiosError none))
          { collection_id := some "c", collection_name := none
            body := { documents := some [{ embedding := some [1], metadata := none }] } }).1
      = { data := none, error := none } := by
  exact ⟨rfl, rfl⟩

/-- Claim C3 (amended): every endpoint result satisfies the
exactly-one-non-null invariant provided the transport never fails with an axios
error that carries no response body; `handleError` preserves the invariant for
every other error, and in the remaining bodyless-axios case it returns both
fields null. -/
theorem c3_amended_result_invariant :
    (∀ (T : Type) (err : JSError), err ≠ .axiosError none →
        (handleError (T := T) err).wellFormed = true)
    ∧ (∀ (T : Type), (handleError (T := T) (.axiosError none)) = { data := none, error := none })
    ∧ (∀ (R : Type) (transport : InsertRequest → HttpOutcome R) (request : InsertRequest),
        (∀ q, transport q ≠ .failure (.axiosError none)) →
        ((insertDocumentsFactory transport request).1).wellFormed = true)
    ∧ (∀ (R : Type) (transport : InsertRequest → HttpOutcome R)
        (request : TransposeAndInsertRequest),
        (∀ q, transport q ≠ .failure (.axiosError none)) →
        ((columnInsertFactory (insertDocumentsFactory transport) request).1).wellFormed = true)
    ∧ (∀ (R : Type) (transport : UpdateRequest → HttpOutcome R) (request : UpdateRequest),
        (∀ q, transport q ≠ .failure (.axiosError none)) →
        ((updateDocumentsFactory transport request).1).wellFormed = true)
    ∧ (∀ (R : Type) (transport : DeleteRequest → HttpOutcome R) (request : DeleteRequest),
        (∀ q, transport q ≠ .failure (.axiosError none)) →
        ((deleteDocumentsFactory transport request).1).wellFormed = true)
    ∧ (∀ (R : Type) (transport : QueryRequest → HttpOutcome R) (request : QueryRequest),
        (∀ q, transport q ≠ .failure (.axiosError none)) →
        ((queryDocumentsFactory transport request).1).wellFormed = true)
    ∧ (∀ (R : Type) (transport : InferSchemaRequest → HttpOutcome R)
        (request : InferSchemaRequest),
        (∀ q, transport q ≠ .failure (.axiosError none)) →
        ((inferSchemaFactory transport request).1).wellFormed = true)
    ∧ (∀ (R : Type) (transport : CreateCollectionRequest → HttpOutcome R)
        (request : CreateCollectionRequest),
        (∀ q, transport q ≠ .failure (.axiosError none)) →
        ((createCollectionFactory transport request).1).wellFormed = true)
    ∧ (∀ (R : Type) (transport : DeleteCollectionRequest → HttpOutcome R)
        (request : DeleteCollectionRequest),
        (∀ q, transport q ≠ .failure (.axiosError none)) →
        ((deleteCollectionFactory transport request).1).wellFormed = true)
    ∧ (∀ (R : Type) (transport : TextEmbeddingRequest → HttpOutcome R)
        (request : TextEmbeddingRequest),
        (∀ q, transport q ≠ .failure (.axiosError none)) →
        ((embedFactory transport request).1).wellFormed = true) := by
  refine ⟨?_, ?_, ?_, ?_, ?_, ?_, ?_, ?_, ?_, ?_, ?_⟩
  · intro T err h
    exact handleError_wellFormed err h
  · intro T
    rfl
  · intro R transport request ht
    exact runEndpoint_wellFormed insertValidate transport request (insertValidate_plain request) ht
  · intro R transport request ht
    exact columnInsert_wellFormed transport request ht
  · intro R transport request ht
    exact runEndpoint_wellFormed updateValidate transport request (updateValidate_plain request) ht
  · intro R transport request ht
    exact runEndpoint_wellFormed deleteValidate transport request (deleteValidate_plain request) ht
  · intro R transport request ht
    exact runEndpoint_wellFormed sanitizeCollectionIdentifiersInRequest transport request
      (sanitize_plain request) ht
  · intro R transport request ht
    exact runEndpoint_wellFormed sanitizeCollectionIdentifiersInRequest transport request
      (sanitize_plain request) ht
  · intro R transport request ht
    exact runEndpoint_wellFormed createCollectionValidate transport request
      (createCollectionValidate_plain request) ht
  · intro R transport request ht
    exact runEndpoint_wellFormed deleteCollectionValidate transport request
      (deleteCollectionValidate_plain request) ht
  · intro R transport request ht
    exact runEndpoint_wellFormed embedValidate transport request (embedValidate_plain request) ht

/-- Claim C3 (amended) witness: the invariant holds concretely for an insert
against an always-successful transport. -/
theorem c3_amended_result_invariant_witness :
    ((insertDocumentsFactory (R := Nat) (fun _ => HttpOutcome.success 0)
        { collection_id := some "c", collection_name := none
          body := { documents := some [{ embedding := some [1], metadata := none }] } }).1).wellFormed
      = true :=
  c3_amended_result_invariant.2.2.1 Nat (fun _ => HttpOutcome.success 0)
    { collection_id := some "c", collection_name := none
      body := { documents := some [{ embedding := some [1], metadata := none }] } }
    (fun _ h => HttpOutcome.noConfusion h)

/-- Claim C4 counterexample: `createCollection` is an endpoint operation, and a
well-formed create request carries neither `collection_id` nor
`collection_name`; the call succeeds and performs exactly one network call
instead of returning the missing-identifier error with zero calls. -/
theorem c4_counterexample_createCollection_no_identifier_check :
    createCollectionFactory (R := Nat) (fun _ => HttpOutcome.success 7)
        { name := some "x", dimensionality := some 5 }
      = ({ data := some 7, error := none }, [{ name := some "x", dimensionality := some 5 }])
    ∧ embedFactory (R := Nat) (fun _ => HttpOutcome.success 9)
        { text := ["hi"], model := "MINI6" }
      = ({ data := some 9, error := none }, [{ text := ["hi"], model := "MINI6" }]) := by
  exact ⟨rfl, rfl⟩

/-- Claim C4 (amended): for the six collection-scoped endpoints (insert,
columnInsert, update, delete, query, inferSchema), a request missing both
identifiers returns exactly the missing-identifier error value and an empty
wire trace; and in general, whenever any validator fails, the endpoint performs
zero network calls and returns the normalized error (`createCollection`,
`deleteCollection` and `embed` validate other fields and never check collection
identifiers). -/
theorem c4_amended_validation_failure_skips_network :
    (∀ (R : Type) (transport : InsertRequest → HttpOutcome R) (request : InsertRequest),
        request.collection_id = none → request.collection_name = none →
        insertDocumentsFactory transport request
          = ({ data := none
               error := some (.errorMessage MISSING_COLLECTION_IDENTIFIER_ERROR) }, []))
    ∧ (∀ (R : Type) (insertDocuments : InsertRequest → APIResult R × List InsertRequest)
        (request : TransposeAndInsertRequest),
        request.collection_id = none → request.collection_name = none →
        columnInsertFactory insertDocuments request
          = ({ data := none
               error := some (.errorMessage MISSING_COLLECTION_IDENTIFIER_ERROR) }, []))
    ∧ (∀ (R : Type) (transport : UpdateRequest → HttpOutcome R) (request : UpdateRequest),
        request.collection_id = none → request.collection_name = none →
        updateDocumentsFactory transport request
          = ({ data := none
               error := some (.errorMessage MISSING_COLLECTION_IDENTIFIER_ERROR) }, []))
    ∧ (∀ (R : Type) (transport : DeleteRequest → HttpOutcome R) (request : DeleteRequest),
        request.collection_id = none → request.collection_name = none →
        deleteDocumentsFactory transport request
          = ({ data := none
               error := some (.errorMessage MISSING_COLLECTION_IDENTIFIER_ERROR) }, []))
    ∧ (∀ (R : Type) (transport : QueryRequest → HttpOutcome R) (request : QueryRequest),
        request.collection_id = none → request.collection_name = none →
        queryDocumentsFactory transport request
          = ({ data := none
               error := some (.errorMessage MISSING_COLLECTION_IDENTIFIER_ERROR) }, []))
    ∧ (∀ (R : Type) (transport : InferSchemaRequest → HttpOutcome R)
        (request : InferSchemaRequest),
        request.collection_id = none → request.collection_name = none →
        inferSchemaFactory transport request
          = ({ data := none
               error := some (.errorMessage MISSING_COLLECTION_IDENTIFIER_ERROR) }, []))
    ∧ (∀ (Q R : Type) (validate : Q → Except JSError Unit) (transport : Q → HttpOutcome R)
        (request : Q) (e : JSError), validate request = .error e →
        runEndpoint validate transport request = (handleError e, []))
    ∧ (∀ (R : Type) (insertDocuments : InsertRequest → APIResult R × List InsertRequest)
        (request : TransposeAndInsertRequest) (e : JSError),
        sanitizeCollectionIdentifiersInRequest request = .error e →
        columnInsertFactory insertDocuments request = (handleError e, [])) := by
  refine ⟨?_, ?_, ?_, ?_, ?_, ?_, ?_, ?_⟩
  · intro R transport request h1 h2
    have hs := sanitize_both_missing request h1 h2
    have := runEndpoint_error insertValidate transport request _
      (insertValidate_sanitize_error request _ hs)
    simpa [handleError] using this
  · intro R insertDocuments request h1 h2
    have hs := sanitize_both_missing request h1 h2
    simp [columnInsertFactory, hs, handleError]
  · intro R transport request h1 h2
    have hs := sanitize_both_missing request h1 h2
    have := runEndpoint_error updateValidate transport request _
      (updateValidate_sanitize_error request _ hs)
    simpa [handleError] using this
  · intro R transport request h1 h2
    have hs := sanitize_both_missing request h1 h2
    have := runEndpoint_error deleteValidate transport request _
      (deleteValidate_sanitize_error request _ hs)
    simpa [handleError] using this
  · intro R transport request h1 h2
    have hs := sanitize_both_missing request h1 h2
    have := runEndpoint_error sanitizeCollectionIdentifiersInRequest transport request _ hs
    simpa [handleError] using this
  · intro R transport request h1 h2
    have hs := sanitize_both_missing request h1 h2
    have := runEndpoint_error sanitizeCollectionIdentifiersInRequest transport request _ hs
    simpa [handleError] using this
  · intro Q R validate transport request e h
    exact runEndpoint_error validate transport request e h
  · intro R insertDocuments request e h
    simp [columnInsertFactory, h]

/-- Claim C4 (amended) witness: an insert request with both identifier keys
absent yields the missing-identifier error value and an empty wire trace. -/
theorem c4_amended_validation_failure_skips_network_witness :
    insertDocumentsFactory (R := Nat) (fun _ => HttpOutcome.success 0)
        { collection_id := none, collection_name := none
          body := { documents := some [] } }
      = ({ data := none
           error := some (.errorMessage MISSING_COLLECTION_IDENTIFIER_ERROR) }, []) :=
  c4_amended_validation_failure_skips_network.1 Nat (fun _ => HttpOutcome.success 0)
    { collection_id := none, collection_name := none, body := { documents := some [] } }
    rfl rfl

/-- Claim C5: at the failing input — both `collection_id` and `collection_name`
present — validation does fail before any network call (empty wire trace), but
the message carried is the literal value of
`MULTIPLE_COLLECTION_IDENTIFIER_ERROR` in `constants.ts`, which is the
openai-key wording (identical to `MULTIPLE_OPENAI_KEY_IDENTIFIER_ERROR`), not
the collection wording the claim quotes (the wording the monolithic variant
uses inline for this same check). -/
theorem c5_code_bug_misworded_catalog_string :
    sanitizeCollectionIdentifiersInRequest (T := Unit)
        { collection_id := some "a", collection_name := some "b", body := () }
      = .error (.error MULTIPLE_COLLECTION_IDENTIFIER_ERROR)
    ∧ MULTIPLE_COLLECTION_IDENTIFIER_ERROR = MULTIPLE_OPENAI_KEY_IDENTIFIER_ERROR
    ∧ MULTIPLE_COLLECTION_IDENTIFIER_ERROR ≠ MULTIPLE_COLLECTION_IDENTIFIER_MESSAGE_MONOLITH
    ∧ queryDocumentsFactory (R := Nat) (fun _ => HttpOutcome.success 0)
        { collection_id := some "a", collection_name := some "b"
          body := { query_embedding := none, sql := none } }
      = ({ data := none
           error := some (.errorMessage MULTIPLE_COLLECTION_IDENTIFIER_ERROR) }, []) := by
  exact ⟨rfl, rfl, by decide, rfl⟩

/-- Claim C6: `createCollection` validates synchronously with no network call on
failure — a falsy name fails with the missing-name message; a present name with
nullish dimensionality fails with the missing-dimensionality message; a present
name with dimensionality `d <= 0` fails with the less-or-equal-zero message; and
dimensionality `0` concretely takes the third message, not the second. -/
theorem c6_createCollection_validation_order :
    (∀ (R : Type) (transport : CreateCollectionRequest → HttpOutcome R)
        (request : CreateCollectionRequest),
        (strFalsy request.name = true →
          createCollectionFactory transport request
            = ({ data := none
                 error := some (.errorMessage CREATE_COLLECTION_MISSING_NAME_ERROR) }, []))
        ∧ (strFalsy request.name = false → request.dimensionality = none →
          createCollectionFactory transport request
            = ({ data := none
                 error := some (.errorMessage CREATE_COLLECTION_MISSING_DIMENSIONALITY_ERROR) },
               []))
        ∧ (∀ d : Int, strFalsy request.name = false → request.dimensionality = some d →
            d ≤ 0 →
          createCollectionFactory transport request
            = ({ data := none
                 error := some (.errorMessage CREATE_COLLECTION_DIMENSIONALITY_LTE_ZERO_ERROR) },
               [])))
    ∧ (∀ (R : Type) (transport : CreateCollectionRequest → HttpOutcome R),
        createCollectionFactory transport { name := some "x", dimensionality := some 0 }
          = ({ data := none
               error := some (.errorMessage CREATE_COLLECTION_DIMENSIONALITY_LTE_ZERO_ERROR) },
             [])) := by
  constructor
  · intro R transport request
    refine ⟨?_, ?_, ?_⟩
    · intro h
      have hv : createCollectionValidate request
          = .error (.error CREATE_COLLECTION_MISSING_NAME_ERROR) := by
        simp [createCollectionValidate, h]
      have := runEndpoint_error createCollectionValidate transport request _ hv
      simpa [handleError] using this
    · intro h1 h2
      have hv : createCollectionValidate request
          = .error (.error CREATE_COLLECTION_MISSING_DIMENSIONALITY_ERROR) := by
        simp [createCollectionValidate, h1, h2]
      have := runEndpoint_error createCollectionValidate transport request _ hv
      simpa [handleError] using this
    · intro d h1 h2 h3
      have hv : createCollectionValidate request
          = .error (.error CREATE_COLLECTION_DIMENSIONALITY_LTE_ZERO_ERROR) := by
        simp [createCollectionValidate, h1, h2, h3]
      have := runEndpoint_error createCollectionValidate transport request _ hv
      simpa [handleError] using this
  · intro R transport
    rfl

/-- Claim C6 witness: a request with an absent name concretely fails with the
missing-name message and no network call. -/
theorem c6_createCollection_validation_order_witness :
    strFalsy (none : Option String) = true
    ∧ createCollectionFactory (R := Nat) (fun _ => HttpOutcome.success 0)
        { name := none, dimensionality := some 3 }
      = ({ data := none
           error := some (.errorMessage CREATE_COLLECTION_MISSING_NAME_ERROR) }, []) :=
  ⟨rfl,
    (c6_createCollection_validation_order.1 Nat (fun _ => HttpOutcome.success 0)
      { name := none, dimensionality := some 3 }).1 rfl⟩

/-- Claim C7 counterexample: a document with the present-but-empty metadata
object (and a valid id and identifiers) passes update validation — the endpoint
performs the network call and returns success — whereas the claim requires the
metadata-missing error with no network call, because `metadata.length` on a
plain object is `undefined`, never `0`. -/
theorem c7_counterexample_empty_metadata_object_passes :
    updateDocumentsFactory (R := Nat) (fun _ => HttpOutcome.success 4)
        { collection_id := some "c", collection_name := none
          body := { documents := some [{ id := some "d", metadata := some [] }] } }
      = ({ data := some 4, error := none },
         [{ collection_id := some "c", collection_name := none
            body := { documents := some [{ id := some "d", metadata := some [] }] } }]) := by
  exact rfl

/-- Claim C7 (amended): with valid identifiers, `updateDocuments` fails
validation exactly when the documents list is absent/empty, or some document's
id is falsy, or some document's metadata fails the source test (nullish, or an
object storing the number 0 under the key "length") — a present non-null
metadata object otherwise passes even when empty; and when the failing check is
the metadata one, the returned error is the metadata message with an empty wire
trace. -/
theorem c7_amended_update_validation_conditions :
    ∀ (request : UpdateRequest),
      sanitizeCollectionIdentifiersInRequest request = .ok () →
      ((∃ e, updateValidate request = .error e)
        ↔ (jsListMissing request.body.documents = true
           ∨ (request.body.documents.getD []).any (fun d => strFalsy d.id) = true
           ∨ (request.body.documents.getD []).any
               (fun d => updateMetadataMissing d.metadata) = true))
      ∧ (jsListMissing request.body.documents = false →
         (request.body.documents.getD []).any (fun d => strFalsy d.id) = false →
         (request.body.documents.getD []).any
             (fun d => updateMetadataMissing d.metadata) = true →
         ∀ (R : Type) (transport : UpdateRequest → HttpOutcome R),
           updateDocumentsFactory transport request
             = ({ data := none
                  error := some (.errorMessage MISSING_DOCUMENT_METADATA_IN_REQUEST_ERROR) },
                [])) := by
  intro request hs
  constructor
  · constructor
    · rintro ⟨e, he⟩
      by_contra hcon
      simp only [not_or, Bool.not_eq_true] at hcon
      obtain ⟨h1, h2, h3⟩ := hcon
      simp [updateValidate, hs, h1, h2, h3] at he
    · intro hdisj
      cases hc1 : jsListMissing request.body.documents with
      | true =>
        exact ⟨.error MISSING_DOCUMENT_IN_REQUEST_ERROR, by simp [updateValidate, hs, hc1]⟩
      | false =>
        cases hc2 : (request.body.documents.getD []).any (fun d => strFalsy d.id) with
        | true =>
          exact ⟨.error MISSING_DOCUMENT_ID_IN_REQUEST_ERROR,
            by simp [updateValidate, hs, hc1, hc2]⟩
        | false =>
          cases hc3 : (request.body.documents.getD []).any
              (fun d => updateMetadataMissing d.metadata) with
          | true =>
            exact ⟨.error MISSING_DOCUMENT_METADATA_IN_REQUEST_ERROR,
              by simp [updateValidate, hs, hc1, hc2, hc3]⟩
          | false =>
            rcases hdisj with h | h | h <;> simp_all
  · intro h1 h2 h3 R transport
    have hv : updateValidate request
        = .error (.error MISSING_DOCUMENT_METADATA_IN_REQUEST_ERROR) := by
      simp [updateValidate, hs, h1, h2, h3]
    have := runEndpoint_error updateValidate transport request _ hv
    simpa [handleError] using this

/-- Claim C7 (amended) witness: a document with nullish metadata concretely
yields the metadata error and an empty wire trace. -/
theorem c7_amended_update_validation_conditions_witness :
    updateDocumentsFactory (R := Nat) (fun _ => HttpOutcome.success 0)
        { collection_id := some "c", collection_name := none
          body := { documents := some [{ id := some "d", metadata := none }] } }
      = ({ data := none
           error := some (.errorMessage MISSING_DOCUMENT_METADATA_IN_REQUEST_ERROR) }, []) :=
  (c7_amended_update_validation_conditions
    { collection_id := some "c", collection_name := none
      body := { documents := some [{ id := some "d", metadata := none }] } }
    rfl).2 (by decide) (by decide) (by decide) Nat (fun _ => HttpOutcome.success 0)

/-- Claim C8 counterexample: when the caller omits `document_metadata`
(`undefined`, not `null`), the composite does NOT backfill — the request
delegated to `columnInsert` carries `undefined` metadata rather than the
backfilled `[{input: <item>}]` list, because the source checks `!== null`
only. -/
theorem c8_counterexample_undefined_metadata_not_backfilled :
    (buildAndInsertEmbeddingsFromOpenAI (R := Nat)
        (some (fun _ => HttpOutcome.success { data := some [{ index := 0, embedding := [1] }] }))
        (fun _ => ({ data := some 0, error := none }, []))
        { collection_id := some "c", collection_name := none
          body := { model := "m", input_data := .str "hi"
                    document_metadata := .undef, openai_user := .undef } }).2
      = [{ collection_id := some "c", collection_name := none
           embeddings := [[1]]
           document_metadata := JSOption.undef }]
    ∧ (JSOption.undef : JSOption (List Metadata))
        ≠ .val (backfillDocumentMetadata (.str "hi")) := by
  exact ⟨rfl, by decide⟩

/-- Claim C8 (amended): when the embedding call succeeds with a data array, the
composite sorts the items ascending by reported index (a sorted permutation of
the response items), pairs the sorted embeddings positionally, resolves the
metadata by the `!== null` ternary — backfilling `{input: <item>}` exactly when
`document_metadata` is explicitly `null`, passing it through (including
`undefined`) otherwise — and delegates the resulting request to `columnInsert`,
wrapping both responses. -/
theorem c8_amended_openai_sort_backfill_delegate :
    ∀ (R : Type)
      (createEmbedding : CreateEmbeddingArgs → HttpOutcome CreateEmbeddingResponseBody)
      (columnInsert : TransposeArgs → APIResult R × List InsertRequest)
      (request : BuildAndInsertEmbeddingsFromOpenAIRequest)
      (resp : CreateEmbeddingResponseBody) (items : List EmbeddingItem),
      sanitizeCollectionIdentifiersInRequest request = .ok () →
      createEmbedding
          { model := request.body.model
            input := request.body.input_data
            user := request.body.openai_user } = .success resp →
      resp.data = some items →
      List.Sorted indexLE (sortEmbeddingData items)
      ∧ (sortEmbeddingData items).Perm items
      ∧ buildAndInsertEmbeddingsFromOpenAI (some createEmbedding) columnInsert request
          = ({ data := some
                 { openai_response := resp
                   starpoint_response := (columnInsert (sentArgs request items)).1.data }
               error := none }, [sentArgs request items])
      ∧ (sentArgs request items).embeddings
          = (sortEmbeddingData items).map (fun item => item.embedding)
      ∧ (request.body.document_metadata = .null →
          (sentArgs request items).document_metadata
            = .val (backfillDocumentMetadata request.body.input_data))
      ∧ (request.body.document_metadata ≠ .null →
          (sentArgs request items).document_metadata = request.body.document_metadata) := by
  intro R createEmbedding columnInsert request resp items hs hce hdata
  refine ⟨List.sorted_insertionSort indexLE items, List.perm_insertionSort indexLE items,
    ?_, rfl, ?_, ?_⟩
  · simp only [buildAndInsertEmbeddingsFromOpenAI, hs, hce, hdata, sentArgs]
  · intro hnull
    simp [sentArgs, requestedDocumentMetadata, hnull]
  · intro hnn
    cases hdm : request.body.document_metadata with
    | undef => simp [sentArgs, requestedDocumentMetadata, hdm]
    | null => exact absurd hdm hnn
    | val l => simp [sentArgs, requestedDocumentMetadata, hdm]

/-- Claim C8 (amended) witness: items reported out of order (indexes 2 then 1)
come out sorted, and an explicit `null` metadata is backfilled from the single
string input. -/
theorem c8_amended_openai_sort_backfill_delegate_witness :
    List.Sorted indexLE (sortEmbeddingData
      [{ index := 2, embedding := [5] }, { index := 1, embedding := [4] }])
    ∧ (sentArgs
        { collection_id := some "c", collection_name := none
          body := { model := "m", input_data := .str "hi"
                    document_metadata := .null, openai_user := .undef } }
        [{ index := 2, embedding := [5] }, { index := 1, embedding := [4] }]).document_metadata
      = .val (backfillDocumentMetadata (.str "hi")) :=
  ⟨(c8_amended_openai_sort_backfill_delegate Nat
      (fun _ => HttpOutcome.success
        { data := some [{ index := 2, embedding := [5] }, { index := 1, embedding := [4] }] })
      (fun _ => ({ data := some 0, error := none }, []))
      { collection_id := some "c", collection_name := none
        body := { model := "m", input_data := .str "hi"
                  document_metadata := .null, openai_user := .undef } }
      { data := some [{ index := 2, embedding := [5] }, { index := 1, embedding := [4] }] }
      [{ index := 2, embedding := [5] }, { index := 1, embedding := [4] }]
      rfl rfl rfl).1,
   (c8_amended_openai_sort_backfill_delegate Nat
      (fun _ => HttpOutcome.success
        { data := some [{ index := 2, embedding := [5] }, { index := 1, embedding := [4] }] })
      (fun _ => ({ data := some 0, error := none }, []))
      { collection_id := some "c", collection_name := none
        body := { model := "m", input_data := .str "hi"
                  document_metadata := .null, openai_user := .undef } }
      { data := some [{ index := 2, embedding := [5] }, { index := 1, embedding := [4] }] }
      [{ index := 2, embedding := [5] }, { index := 1, embedding := [4] }]
      rfl rfl rfl).2.2.2.2.1 rfl⟩

/-- Claim C9: host validation is eager and raising — an empty host throws
exactly the missing-host message, a host rejected by the (external) `isURL`
predicate throws the invalid-format message, and an accepted host is returned
with one trailing slash stripped. -/
theorem c9_host_validation_throws :
    ∀ (f : String → Bool) (host : String),
      (host = "" → setAndValidateHost f host = .error (.error MISSING_HOST_ERROR))
      ∧ (host ≠ "" → f host = false →
          setAndValidateHost f host
            = .error (.error ("Provided host " ++ host ++ " is not a valid URL format.")))
      ∧ (host ≠ "" → f host = true →
          setAndValidateHost f host = .ok (stripTrailingSlash host))
      ∧ (host.data.getLast? = some '/' → stripTrailingSlash host = String.mk host.data.dropLast)
      ∧ (host.data.getLast? ≠ some '/' → stripTrailingSlash host = host) := by
  intro f host
  refine ⟨?_, ?_, ?_, ?_, ?_⟩
  · intro h
    subst h
    rfl
  · intro h1 h2
    have hb : (host == "") = false := by
      simpa [beq_eq_false_iff_ne] using h1
    simp [setAndValidateHost, hb, h2]
  · intro h1 h2
    have hb : (host == "") = false := by
      simpa [beq_eq_false_iff_ne] using h1
    simp [setAndValidateHost, hb, h2]
  · intro h
    simp [stripTrailingSlash, h]
  · intro h
    simp [stripTrailingSlash, h]

/-- Claim C9 witness: a concrete accepted host with a trailing slash comes back
with the slash stripped. -/
theorem c9_host_validation_throws_witness :
    setAndValidateHost (fun _ => true) "http://x.y/" = .ok (stripTrailingSlash "http://x.y/")
    ∧ stripTrailingSlash "http://x.y/" = "http://x.y"
    ∧ setAndValidateHost (fun _ => true) "" = .error (.error MISSING_HOST_ERROR) :=
  ⟨((c9_host_validation_throws (fun _ => true) "http://x.y/").2.2.1 (by decide) rfl),
   by decide,
   ((c9_host_validation_throws (fun _ => true) "").1 rfl)⟩

/-- Claim C10: when both identifier keys are present the too-many-identifiers
error fires regardless of the keys' values (empty strings included), and the
null-name / null-id errors can only arise when exactly one key is present and
its string value is empty (falsy). -/
theorem c10_identifier_check_precedence :
    ∀ (T : Type) (request : ByWrapper T),
      (request.collection_id.isSome = true → request.collection_name.isSome = true →
        sanitizeCollectionIdentifiersInRequest request
          = .error (.error MULTIPLE_COLLECTION_IDENTIFIER_ERROR))
      ∧ (sanitizeCollectionIdentifiersInRequest request
            = .error (.error NULL_COLLECTION_NAME_ERROR) →
          request.collection_id = none ∧ request.collection_name = some "")
      ∧ (sanitizeCollectionIdentifiersInRequest request
            = .error (.error NULL_COLLECTION_ID_ERROR) →
          request.collection_name = none ∧ request.collection_id = some "") := by
  intro T request
  obtain ⟨cid, cname, body⟩ := request
  cases cid with
  | none =>
    cases cname with
    | none =>
      have hval : sanitizeCollectionIdentifiersInRequest
          (⟨none, none, body⟩ : ByWrapper T)
          = .error (.error MISSING_COLLECTION_IDENTIFIER_ERROR) := by
        simp [sanitizeCollectionIdentifiersInRequest]
      refine ⟨?_, ?_, ?_⟩
      · intro h1 h2
        simp at h1
      · intro h
        rw [hval] at h
        injection h with h1
        injection h1 with h2
        exact absurd h2 (by decide)
      · intro h
        rw [hval] at h
        injection h with h1
        injection h1 with h2
        exact absurd h2 (by decide)
    | some s =>
      refine ⟨?_, ?_, ?_⟩
      · intro h1 h2
        simp at h1
      · intro h
        by_cases hf : s = ""
        · exact ⟨rfl, by rw [hf]⟩
        · have hval : sanitizeCollectionIdentifiersInRequest
              (⟨none, some s, body⟩ : ByWrapper T) = .ok () := by
            simp [sanitizeCollectionIdentifiersInRequest, strFalsy, hf]
          rw [hval] at h
          exact Except.noConfusion h
      · intro h
        by_cases hf : s = ""
        · subst hf
          have hval : sanitizeCollectionIdentifiersInRequest
              (⟨none, some "", body⟩ : ByWrapper T)
              = .error (.error NULL_COLLECTION_NAME_ERROR) := by
            simp [sanitizeCollectionIdentifiersInRequest, strFalsy]
          rw [hval] at h
          injection h with h1
          injection h1 with h2
          exact absurd h2 (by decide)
        · have hval : sanitizeCollectionIdentifiersInRequest
              (⟨none, some s, body⟩ : ByWrapper T) = .ok () := by
            simp [sanitizeCollectionIdentifiersInRequest, strFalsy, hf]
          rw [hval] at h
          exact Except.noConfusion h
  | some s =>
    cases cname with
    | none =>
      refine ⟨?_, ?_, ?_⟩
      · intro h1 h2
        simp at h2
      · intro h
        by_cases hf : s = ""
        · subst hf
          have hval : sanitizeCollectionIdentifiersInRequest
              (⟨some "", none, body⟩ : ByWrapper T)
              = .error (.error NULL_COLLECTION_ID_ERROR) := by
            simp [sanitizeCollectionIdentifiersInRequest, strFalsy]
          rw [hval] at h
          injection h with h1
          injection h1 with h2
          exact absurd h2 (by decide)
        · have hval : sanitizeCollectionIdentifiersInRequest
              (⟨some s, none, body⟩ : ByWrapper T) = .ok () := by
            simp [sanitizeCollectionIdentifiersInRequest, strFalsy, hf]
          rw [hval] at h
          exact Except.noConfusion h
      · intro h
        by_cases hf : s = ""
        · exact ⟨rfl, by rw [hf]⟩
        · have hval : sanitizeCollectionIdentifiersInRequest
              (⟨some s, none, body⟩ : ByWrapper T) = .ok () := by
            simp [sanitizeCollectionIdentifiersInRequest, strFalsy, hf]
          rw [hval] at h
          exact Except.noConfusion h
    | some t =>
      have hval : sanitizeCollectionIdentifiersInRequest
          (⟨some s, some t, body⟩ : ByWrapper T)
          = .error (.error MULTIPLE_COLLECTION_IDENTIFIER_ERROR) := by
        simp [sanitizeCollectionIdentifiersInRequest]
      refine ⟨?_, ?_, ?_⟩
      · intro h1 h2
        exact hval
      · intro h
        rw [hval] at h
        injection h with h1
        injection h1 with h2
        exact absurd h2 (by decide)
      · intro h
        rw [hval] at h
        injection h with h1
        injection h1 with h2
        exact absurd h2 (by decide)

/-- Claim C10 witness: both keys present with empty-string values still fire the
too-many-identifiers error. -/
theorem c10_identifier_check_precedence_witness :
    (some "" : Option String).isSome = true
    ∧ sanitizeCollectionIdentifiersInRequest (T := Unit)
        { collection_id := some "", collection_name := some "", body := () }
      = .error (.error MULTIPLE_COLLECTION_IDENTIFIER_ERROR) :=
  ⟨rfl,
    (c10_identifier_check_precedence Unit
      { collection_id := some "", collection_name := some "", body := () }).1 rfl rfl⟩

end Starpoint
